import Mathlib

/-!
Verification of the configured crawler wrapper
(`src/helper_functions/crawler.py`, class `CustomCrawler`).

The whole repository is one constructor: it computes four environment
signals, assembles a deduplicated set of browser launch flags, starts a
browser session and stores the crawl configuration on the instance.
The Python code is shallowly embedded below: the environment is an
explicit record of the raw inputs the constructor reads, the mutable
option list is threaded explicitly, the external driver start is a
caller-supplied fallible function, and Python exceptions become
`Except`.
-/

namespace CrawlerSpec

/-- The raw inputs the constructor reads from the process environment
(crawler.py lines 87-90): whether the module `google.colab` is loaded,
the value of the environment variable `AZUREML_ENVIRONMENT_IMAGE`
(`none` when absent), the platform identifier `sys.platform`, and the
effective user id returned by `os.geteuid()`. -/
structure RawEnv where
  colab_module_present : Bool
  azureml_env : Option String
  platform : String
  geteuid : Nat

/-- Line 87: `IN_COLAB = "google.colab" in sys.modules`. -/
def IN_COLAB (e : RawEnv) : Bool := e.colab_module_present

/-- Line 88: `IN_AZUREML = os.environ.get("AZUREML_ENVIRONMENT_IMAGE", None) == "True"`. -/
def IN_AZUREML (e : RawEnv) : Bool := e.azureml_env == some "True"

/-- Line 89: `IN_WINDOWS = sys.platform in ["win32", "cygwin"]`. -/
def IN_WINDOWS (e : RawEnv) : Bool := e.platform == "win32" || e.platform == "cygwin"

/-- Line 90: `IS_ROOT = not IN_WINDOWS and os.geteuid() == 0`, embedded with
Python's short-circuit `and`: the second component of the pair records
whether the effective-user-id lookup `os.geteuid()` was evaluated
(on a Windows platform the conjunction short-circuits and the lookup
never runs). -/
def isRootShortCircuit (e : RawEnv) : Bool × Bool :=
  if IN_WINDOWS e then (false, false) else (e.geteuid == 0, true)

/-- The superuser signal: first component of the short-circuit evaluation. -/
def IS_ROOT (e : RawEnv) : Bool := (isRootShortCircuit e).1

/-- Line 93: the default option list used when the caller supplies none. -/
def defaultWebdriverOptions : List String :=
  ["--headless", "--disable-gpu", "--disable-dev-shm-usage", "--single-process"]

/-- Lines 95-100 as data: the three conditional append rules, in source
order, each a pair of its guard and the flag it appends. -/
def condRules (is_root in_windows in_colab in_azureml : Bool) : List (Bool × String) :=
  [(is_root || in_windows || in_colab, "--no-sandbox"),
   (is_root || in_windows, "--remote-debugging-port=9222"),
   (in_colab || in_azureml, "--disable-dev-shm-usage")]

/-- Run a list of conditional append rules over an option list: each rule
whose guard holds appends its flag (one `if cond: list.append(flag)`
statement per rule). -/
def applyRules (base : List String) (rules : List (Bool × String)) : List String :=
  rules.foldl (fun acc r => if r.1 then acc ++ [r.2] else acc) base

/-- Lines 92-100: the final contents of the (mutated) option list.
`webdriver_options = none` models the caller supplying no list, in which
case the default list of line 93 is used; line 94 appends
`"--headless"` unconditionally; then the three conditional rules run in
source order. -/
def accumulateOptions (webdriver_options : Option (List String))
    (is_root in_windows in_colab in_azureml : Bool) : List String :=
  applyRules (webdriver_options.getD defaultWebdriverOptions ++ ["--headless"])
    (condRules is_root in_windows in_colab in_azureml)

/-- Lines 102-104: `for option in set(webdriver_options): options.add_argument(option)`.
The set of arguments registered on the `Options` object: the accumulated
list, deduplicated (Python `set`, order not significant). -/
def registeredOptions (webdriver_options : Option (List String))
    (is_root in_windows in_colab in_azureml : Bool) : Finset String :=
  (accumulateOptions webdriver_options is_root in_windows in_colab in_azureml).toFinset

/-- Line 94 onward mutates the very list object the caller passed in
(`webdriver_options.append` and the conditional appends), so after a
successful construction the caller observes this list. -/
def callerListAfterInit (l : List String)
    (is_root in_windows in_colab in_azureml : Bool) : List String :=
  accumulateOptions (some l) is_root in_windows in_colab in_azureml

/-- The external browser session handle (`webdriver.Chrome`), recording the
argument set it was started with. -/
structure WebDriver where
  args : Finset String

/-- The constructed crawler instance: the session handle plus the ten
crawl-configuration fields stored on `self` in lines 106-116. -/
structure CustomCrawler where
  driver : WebDriver
  urls : Option (List String)
  crawler_depth : Int
  filter_urls : Option (List String)
  id_hash_keys : Option (List String)
  extract_hidden_text : Bool
  loading_wait_time : Option Int
  output_dir : Option String
  overwrite_existing_files : Bool
  file_path_meta_field_name : Option String
  crawler_naming_function : Option (String → String → String)

/-- `CustomCrawler.__init__` (lines 87-116). `chrome` is the external
`webdriver.Chrome` call, a fallible function from the registered
argument set to a session handle; a raised driver-startup exception is
`Except.error`, which aborts the constructor before any configuration
field is stored, so no instance is produced. -/
def CustomCrawler.init
    (chrome : Finset String → Except String WebDriver)
    (env : RawEnv)
    (urls : Option (List String))
    (crawler_depth : Int)
    (filter_urls : Option (List String))
    (id_hash_keys : Option (List String))
    (extract_hidden_text : Bool)
    (loading_wait_time : Option Int)
    (output_dir : Option String)
    (overwrite_existing_files : Bool)
    (file_path_meta_field_name : Option String)
    (crawler_naming_function : Option (String → String → String))
    (webdriver_options : Option (List String)) :
    Except String CustomCrawler :=
  match chrome (registeredOptions webdriver_options
      (IS_ROOT env) (IN_WINDOWS env) (IN_COLAB env) (IN_AZUREML env)) with
  | Except.error e => Except.error e
  | Except.ok d =>
      Except.ok ⟨d, urls, crawler_depth, filter_urls, id_hash_keys, extract_hidden_text,
        loading_wait_time, output_dir, overwrite_existing_files, file_path_meta_field_name,
        crawler_naming_function⟩

/-- Running the rules appends exactly the flags of the firing rules, in
rule order, after the base list. -/
theorem applyRules_eq_append (rules : List (Bool × String)) (base : List String) :
    applyRules base rules = base ++ (rules.filter (·.1)).map (·.2) := by
  induction rules generalizing base with
  | nil => simp [applyRules]
  | cons r rs ih =>
      by_cases h : r.1 = true
      · simp [applyRules, h, List.foldl_cons] at ih ⊢
        rw [ih]
        simp
      · simp only [Bool.not_eq_true] at h
        simp [applyRules, h, List.foldl_cons] at ih ⊢
        rw [ih]

/-- Membership in the accumulated option list, spelled out. -/
theorem mem_accumulateOptions (x : String) (wdo : Option (List String))
    (r w c a : Bool) :
    x ∈ accumulateOptions wdo r w c a ↔
      x ∈ wdo.getD defaultWebdriverOptions ∨ x = "--headless" ∨
      ((r || w || c) = true ∧ x = "--no-sandbox") ∨
      ((r || w) = true ∧ x = "--remote-debugging-port=9222") ∨
      ((c || a) = true ∧ x = "--disable-dev-shm-usage") := by
  cases r <;> cases w <;> cases c <;> cases a <;>
    simp [accumulateOptions, applyRules_eq_append, condRules, List.mem_append,
      List.filter, or_assoc]

/-- The constructor, written with `Except.map`: the driver start either
fails (error propagated, no instance) or yields the fully built record. -/
theorem init_eq_map (chrome : Finset String → Except String WebDriver) (env : RawEnv)
    (urls : Option (List String)) (crawler_depth : Int)
    (filter_urls id_hash_keys : Option (List String))
    (extract_hidden_text : Bool) (loading_wait_time : Option Int)
    (output_dir : Option String) (overwrite_existing_files : Bool)
    (file_path_meta_field_name : Option String)
    (crawler_naming_function : Option (String → String → String))
    (webdriver_options : Option (List String)) :
    CustomCrawler.init chrome env urls crawler_depth filter_urls id_hash_keys
        extract_hidden_text loading_wait_time output_dir overwrite_existing_files
        file_path_meta_field_name crawler_naming_function webdriver_options =
      (chrome (registeredOptions webdriver_options
          (IS_ROOT env) (IN_WINDOWS env) (IN_COLAB env) (IN_AZUREML env))).map
        (fun d => ⟨d, urls, crawler_depth, filter_urls, id_hash_keys, extract_hidden_text,
          loading_wait_time, output_dir, overwrite_existing_files, file_path_meta_field_name,
          crawler_naming_function⟩) := by
  unfold CustomCrawler.init
  cases chrome (registeredOptions webdriver_options
      (IS_ROOT env) (IN_WINDOWS env) (IN_COLAB env) (IN_AZUREML env)) <;> rfl

/-- C1: for every caller-supplied option list (including none) and every
combination of the four environment signals, the option set registered
on the browser session contains `"--headless"`. -/
theorem headless_always_registered (wdo : Option (List String)) (r w c a : Bool) :
    "--headless" ∈ registeredOptions wdo r w c a := by
  simp only [registeredOptions, List.mem_toFinset, mem_accumulateOptions]
  tauto

/-- C2, counterexample: with no caller-supplied options but the superuser
signal set (a root process on a non-Windows host), the registered set is
not the four default flags: `"--no-sandbox"` and the remote-debugging
flag are added as well. -/
theorem no_options_default_set_counterexample :
    registeredOptions none true false false false ≠ defaultWebdriverOptions.toFinset := by
  decide

/-- C2, amended: when the caller supplies no webdriver_options and none of
the superuser, Windows or notebook/cloud signals is true (the
managed-image signal may be either value), the registered option set
equals exactly the four default flags, deduplicated to four unique
entries. -/
theorem no_options_default_set (r w c a : Bool)
    (hr : r = false) (hw : w = false) (hc : c = false) :
    registeredOptions none r w c a = defaultWebdriverOptions.toFinset ∧
    (registeredOptions none r w c a).card = 4 := by
  subst hr; subst hw; subst hc
  cases a <;> exact ⟨by decide, by decide⟩

/-- C2, witness for the amended claim at a concrete input. -/
theorem no_options_default_set_witness :
    registeredOptions none false false false true = defaultWebdriverOptions.toFinset ∧
    (registeredOptions none false false false true).card = 4 :=
  no_options_default_set false false false true rfl rfl rfl

/-- C3: for every input option list, if the superuser signal is true and
the Windows signal is false, the registered set contains both
`"--no-sandbox"` and `"--remote-debugging-port=9222"`. -/
theorem root_non_windows_flags (wdo : Option (List String)) (c a : Bool) :
    "--no-sandbox" ∈ registeredOptions wdo true false c a ∧
    "--remote-debugging-port=9222" ∈ registeredOptions wdo true false c a := by
  constructor <;>
    · simp only [registeredOptions, List.mem_toFinset, mem_accumulateOptions]
      simp

/-- C4: for every input option list not itself containing the
remote-debugging flag, if the notebook/cloud signal is true and the
superuser and Windows signals are false, the registered set contains
`"--no-sandbox"` and `"--disable-dev-shm-usage"` but not
`"--remote-debugging-port=9222"`. -/
theorem colab_only_flags (wdo : Option (List String)) (a : Bool)
    (h : ∀ l, wdo = some l → "--remote-debugging-port=9222" ∉ l) :
    "--no-sandbox" ∈ registeredOptions wdo false false true a ∧
    "--disable-dev-shm-usage" ∈ registeredOptions wdo false false true a ∧
    "--remote-debugging-port=9222" ∉ registeredOptions wdo false false true a := by
  refine ⟨?_, ?_, ?_⟩
  · simp only [registeredOptions, List.mem_toFinset, mem_accumulateOptions]
    simp
  · simp only [registeredOptions, List.mem_toFinset, mem_accumulateOptions]
    simp
  · intro hmem
    rw [registeredOptions, List.mem_toFinset, mem_accumulateOptions] at hmem
    rcases hmem with hb | he | ⟨_, he⟩ | ⟨hg, _⟩ | ⟨_, he⟩
    · cases wdo with
      | none => revert hb; decide
      | some l => exact h l rfl (by simpa using hb)
    · exact absurd he (by decide)
    · exact absurd he (by decide)
    · exact absurd hg (by decide)
    · exact absurd he (by decide)

/-- C4, witness: a caller list without the remote-debugging flag, in a
notebook environment. -/
theorem colab_only_flags_witness :
    "--no-sandbox" ∈ registeredOptions (some ["--headless"]) false false true false ∧
    "--disable-dev-shm-usage" ∈ registeredOptions (some ["--headless"]) false false true false ∧
    "--remote-debugging-port=9222" ∉ registeredOptions (some ["--headless"]) false false true false :=
  colab_only_flags (some ["--headless"]) false
    (by intro l hl; injection hl with h2; subst h2; decide)

/-- C5: on a Windows-identified platform the effective-user-id lookup is
never evaluated (the short-circuit `and` skips it) and the superuser
signal is false. -/
theorem windows_skips_privilege_lookup (e : RawEnv)
    (h : e.platform = "win32" ∨ e.platform = "cygwin") :
    isRootShortCircuit e = (false, false) ∧ IS_ROOT e = false := by
  have hw : IN_WINDOWS e = true := by
    rcases h with h | h <;> simp [IN_WINDOWS, h]
  refine ⟨?_, ?_⟩ <;> simp [IS_ROOT, isRootShortCircuit, hw]

/-- C5, witness: on `"win32"`, even with effective user id 0, no lookup
happens and the superuser signal is false. -/
theorem windows_skips_privilege_lookup_witness :
    isRootShortCircuit ⟨false, none, "win32", 0⟩ = (false, false) ∧
    IS_ROOT ⟨false, none, "win32", 0⟩ = false :=
  windows_skips_privilege_lookup ⟨false, none, "win32", 0⟩ (Or.inl rfl)

/-- C6: construction is atomic: a driver-startup error propagates unchanged
and no instance is produced; a successful start yields the fully
initialized record carrying the live session handle. -/
theorem init_atomic (chrome : Finset String → Except String WebDriver) (env : RawEnv)
    (urls : Option (List String)) (crawler_depth : Int)
    (filter_urls id_hash_keys : Option (List String))
    (extract_hidden_text : Bool) (loading_wait_time : Option Int)
    (output_dir : Option String) (overwrite_existing_files : Bool)
    (file_path_meta_field_name : Option String)
    (crawler_naming_function : Option (String → String → String))
    (webdriver_options : Option (List String)) :
    (∀ msg, chrome (registeredOptions webdriver_options
        (IS_ROOT env) (IN_WINDOWS env) (IN_COLAB env) (IN_AZUREML env)) = Except.error msg →
      CustomCrawler.init chrome env urls crawler_depth filter_urls id_hash_keys
          extract_hidden_text loading_wait_time output_dir overwrite_existing_files
          file_path_meta_field_name crawler_naming_function webdriver_options =
        Except.error msg) ∧
    (∀ d, chrome (registeredOptions webdriver_options
        (IS_ROOT env) (IN_WINDOWS env) (IN_COLAB env) (IN_AZUREML env)) = Except.ok d →
      CustomCrawler.init chrome env urls crawler_depth filter_urls id_hash_keys
          extract_hidden_text loading_wait_time output_dir overwrite_existing_files
          file_path_meta_field_name crawler_naming_function webdriver_options =
        Except.ok ⟨d, urls, crawler_depth, filter_urls, id_hash_keys, extract_hidden_text,
          loading_wait_time, output_dir, overwrite_existing_files, file_path_meta_field_name,
          crawler_naming_function⟩) := by
  constructor <;> intro x hx <;>
    rw [init_eq_map chrome env urls crawler_depth filter_urls id_hash_keys
      extract_hidden_text loading_wait_time output_dir overwrite_existing_files
      file_path_meta_field_name crawler_naming_function webdriver_options, hx] <;> rfl

/-- A driver start that always fails. -/
def chromeFail : Finset String → Except String WebDriver :=
  fun _ => Except.error "session not created"

/-- A driver start that always succeeds, recording the argument set. -/
def chromeOk : Finset String → Except String WebDriver :=
  fun s => Except.ok ⟨s⟩

/-- A concrete non-Windows, non-root, non-notebook environment. -/
def env0 : RawEnv := ⟨false, none, "linux", 1000⟩

/-- The crawler instance produced by a successful default construction in
`env0`. -/
def crawler0 : CustomCrawler :=
  ⟨⟨registeredOptions none (IS_ROOT env0) (IN_WINDOWS env0) (IN_COLAB env0) (IN_AZUREML env0)⟩,
    none, 1, none, none, true, none, none, true, none, none⟩

/-- C6, witness: a failing start propagates its error; a succeeding start
returns the built instance. -/
theorem init_atomic_witness :
    CustomCrawler.init chromeFail env0 none 1 none none true none none true none none none =
      Except.error "session not created" ∧
    CustomCrawler.init chromeOk env0 none 1 none none true none none true none none none =
      Except.ok crawler0 :=
  ⟨(init_atomic chromeFail env0 none 1 none none true none none true none none none).1
      "session not created" rfl,
   (init_atomic chromeOk env0 none 1 none none true none none true none none none).2
      crawler0.driver rfl⟩

/-- C7: on every successful construction, each of the ten
crawl-configuration parameters is stored on the instance equal to the
value passed in and is retrievable unchanged. -/
theorem config_fields_stored (chrome : Finset String → Except String WebDriver) (env : RawEnv)
    (urls : Option (List String)) (crawler_depth : Int)
    (filter_urls id_hash_keys : Option (List String))
    (extract_hidden_text : Bool) (loading_wait_time : Option Int)
    (output_dir : Option String) (overwrite_existing_files : Bool)
    (file_path_meta_field_name : Option String)
    (crawler_naming_function : Option (String → String → String))
    (webdriver_options : Option (List String)) (c : CustomCrawler)
    (h : CustomCrawler.init chrome env urls crawler_depth filter_urls id_hash_keys
        extract_hidden_text loading_wait_time output_dir overwrite_existing_files
        file_path_meta_field_name crawler_naming_function webdriver_options = Except.ok c) :
    c.urls = urls ∧ c.crawler_depth = crawler_depth ∧ c.filter_urls = filter_urls ∧
    c.id_hash_keys = id_hash_keys ∧ c.extract_hidden_text = extract_hidden_text ∧
    c.loading_wait_time = loading_wait_time ∧ c.output_dir = output_dir ∧
    c.overwrite_existing_files = overwrite_existing_files ∧
    c.file_path_meta_field_name = file_path_meta_field_name ∧
    c.crawler_naming_function = crawler_naming_function := by
  rw [init_eq_map] at h
  cases hch : chrome (registeredOptions webdriver_options
      (IS_ROOT env) (IN_WINDOWS env) (IN_COLAB env) (IN_AZUREML env)) with
  | error e => rw [hch] at h; simp [Except.map] at h
  | ok d =>
      rw [hch] at h
      simp only [Except.map, Except.ok.injEq] at h
      subst h
      exact ⟨rfl, rfl, rfl, rfl, rfl, rfl, rfl, rfl, rfl, rfl⟩

/-- C7, witness: the default construction in `env0` stores the documented
defaults. -/
theorem config_fields_stored_witness :
    crawler0.urls = none ∧ crawler0.crawler_depth = 1 ∧ crawler0.filter_urls = none ∧
    crawler0.id_hash_keys = none ∧ crawler0.extract_hidden_text = true ∧
    crawler0.loading_wait_time = none ∧ crawler0.output_dir = none ∧
    crawler0.overwrite_existing_files = true ∧
    crawler0.file_path_meta_field_name = none ∧
    crawler0.crawler_naming_function = none :=
  config_fields_stored chromeOk env0 none 1 none none true none none true none none none
    crawler0 rfl

/-- The deduplicated result of running the rules does not depend on the
order of the rules. -/
theorem applyRules_toFinset_perm (base : List String) (rules1 rules2 : List (Bool × String))
    (hperm : rules1.Perm rules2) :
    (applyRules base rules1).toFinset = (applyRules base rules2).toFinset := by
  ext x
  simp only [List.mem_toFinset, applyRules_eq_append, List.mem_append, List.mem_map,
    List.mem_filter]
  constructor <;> rintro (hb | ⟨p, ⟨hp, hg⟩, hx⟩)
  · exact Or.inl hb
  · exact Or.inr ⟨p, ⟨hperm.mem_iff.mp hp, hg⟩, hx⟩
  · exact Or.inl hb
  · exact Or.inr ⟨p, ⟨hperm.mem_iff.mpr hp, hg⟩, hx⟩

/-- C8: the registered option set has no duplicate entries (the deduplicated
accumulated list is duplicate-free and yields exactly the registered
set), and the registered set is invariant under any reordering of the
three conditional append rules. -/
theorem registered_nodup_order_invariant (wdo : Option (List String)) (r w c a : Bool)
    (rules2 : List (Bool × String)) (hperm : (condRules r w c a).Perm rules2) :
    (accumulateOptions wdo r w c a).dedup.Nodup ∧
    (accumulateOptions wdo r w c a).dedup.toFinset = registeredOptions wdo r w c a ∧
    (applyRules (wdo.getD defaultWebdriverOptions ++ ["--headless"]) rules2).toFinset =
      registeredOptions wdo r w c a := by
  refine ⟨List.nodup_dedup _, by ext x; simp [List.mem_dedup, registeredOptions], ?_⟩
  rw [registeredOptions, accumulateOptions]
  exact (applyRules_toFinset_perm _ _ _ hperm).symm

/-- The three conditional rules with all guards true, listed in a different
order than in the source. -/
def rules0 : List (Bool × String) :=
  [(true, "--disable-dev-shm-usage"), (true, "--no-sandbox"),
   (true, "--remote-debugging-port=9222")]

/-- C8, witness: with every environment signal set and the rules reordered,
the registered set is unchanged. -/
theorem registered_nodup_order_invariant_witness :
    (accumulateOptions none true true true true).dedup.Nodup ∧
    (accumulateOptions none true true true true).dedup.toFinset =
      registeredOptions none true true true true ∧
    (applyRules (defaultWebdriverOptions ++ ["--headless"]) rules0).toFinset =
      registeredOptions none true true true true :=
  registered_nodup_order_invariant none true true true true rules0 (by decide)

/-- C9: the managed-image signal is true exactly when the environment
variable `AZUREML_ENVIRONMENT_IMAGE` is present with value exactly the
literal string `"True"`; any other value, and absence, yield false. -/
theorem azureml_signal_iff (e : RawEnv) :
    IN_AZUREML e = true ↔ e.azureml_env = some "True" := by
  simp [IN_AZUREML]

/-- C10: construction mutates the caller-supplied list in place: afterwards
the caller's list is its old contents with `"--headless"` appended,
followed by the flags of the environment-conditional rules that fired
(in particular the list is strictly longer, so it is not left
untouched). -/
theorem caller_list_mutated (l : List String) (r w c a : Bool) :
    callerListAfterInit l r w c a =
      l ++ ["--headless"] ++ ((condRules r w c a).filter (·.1)).map (·.2) ∧
    l.length < (callerListAfterInit l r w c a).length := by
  have he : callerListAfterInit l r w c a =
      l ++ ["--headless"] ++ ((condRules r w c a).filter (·.1)).map (·.2) := by
    simp [callerListAfterInit, accumulateOptions, applyRules_eq_append]
  refine ⟨he, ?_⟩
  rw [he]
  simp only [List.length_append, List.length_cons, List.length_nil]
  omega

end CrawlerSpec
